import Mathlib

/-!
Verification of the schema-checker script `templates/example-db-schema.py`.

The script is embedded shallowly: every observable step of the Python run
(printing a line, testing file existence, walking the directory tree,
connecting to the database, issuing an SQL query, closing the connection)
is recorded as an `Effect` in a trace, and the run ends in an `Outcome`
(a clean `sys.exit` or an uncaught exception).  The external world the
script interacts with is an `Env`: the `DB_PATH` environment variable, a
filesystem oracle, and a database-connection oracle whose individual
operations may raise a database-layer error (`Except String`).  A concrete,
healthy database (a list of tables with their column names) induces a
connection oracle via `connOfDB`; the functional claims are proved against
that layer, while the error-handling claims are proved against an arbitrary
connection oracle.
-/

/-- A single quote character, used to build the Python-style quoted strings
the script prints. -/
def squote : String := "\x27"

/-- Wraps a string in single quotes, as Python string repr does for names
without special characters. -/
def pyq (s : String) : String := squote ++ s ++ squote

/-- Python `repr` of a set of strings rendered in the enumeration order
given by the list: `\x7b'a', 'b'\x7d`, or `set()` when empty.  CPython
iterates a set of strings in a per-process hash-determined order: `run`
passes first-insertion order (one possible process), while `runSeeded`
renders the enumeration chosen by its `SetOrder` argument. -/
def pySetRepr (l : List String) : String :=
  match l with
  | [] => "set()"
  | _ => "\x7b" ++ String.intercalate ", " (l.map pyq) ++ "\x7d"

/-- Helper of `pySetOfList`: drops elements already seen, keeping first
occurrences. -/
def pySetAux (seen : List String) : List String → List String
  | [] => []
  | x :: xs => if seen.contains x then pySetAux seen xs else x :: pySetAux (x :: seen) xs

/-- The contents of the Python set built from a list
(`\x7brow[1] for row in ...\x7d`): duplicates removed, first occurrence
kept.  This is the set's contents as a canonical list; the order in which
an actual CPython process iterates those contents is a permutation of this
list, modelled separately by `SetOrder`. -/
def pySetOfList (l : List String) : List String := pySetAux [] l

/-- Whether the first character list is a prefix of the second (structural,
so that proofs can evaluate it). -/
def charListPrefix : List Char → List Char → Bool
  | [], _ => true
  | _ :: _, [] => false
  | a :: as, b :: bs => a == b && charListPrefix as bs

/-- Python `str.startswith`. -/
def strStartsWith (s pre : String) : Bool := charListPrefix pre.data s.data

/-- Python `str.endswith`. -/
def strEndsWith (s post : String) : Bool :=
  charListPrefix post.data.reverse s.data.reverse

/-- Lexicographic strict comparison of character lists by code point, the
order Python uses to compare strings. -/
def charListLt : List Char → List Char → Bool
  | [], [] => false
  | [], _ :: _ => true
  | _ :: _, [] => false
  | a :: as, b :: bs => a < b || (a == b && charListLt as bs)

/-- Python string `<=`: code-point lexicographic. -/
def pyStrLe (a b : String) : Bool := a == b || charListLt a.data b.data

/-- Insert a string into an already sorted list (helper of `sortStrings`). -/
def insertSorted (x : String) : List String → List String
  | [] => [x]
  | y :: ys => if pyStrLe x y then x :: y :: ys else y :: insertSorted x ys

/-- Python `sorted` on a list of strings: ascending code-point order. -/
def sortStrings (l : List String) : List String := l.foldr insertSorted []

/-- `REQUIRED_TABLE = "users"` (line 12 of the script). -/
def REQUIRED_TABLE : String := "users"

/-- `REQUIRED_COLUMNS = \x7b"id", "email", "created_at"\x7d` (line 13),
as a list in the literal's insertion order. -/
def REQUIRED_COLUMNS : List String := ["id", "email", "created_at"]

/-- One observable operation of the run.  `printLine` writes a line to
standard output; the rest are reads of the external world: `fsExists` is
`os.path.exists`, `fsWalk` is the `os.walk(".")` scan, `dbConnect` is
`sqlite3.connect`, `dbQuery` is `cursor.execute` with its SQL text and
bound parameters, `dbClose` is `conn.close()`. -/
inductive Effect
  | printLine (s : String)
  | fsExists (path : String)
  | fsWalk
  | dbConnect (path : String)
  | dbQuery (sql : String) (params : List String)
  | dbClose
deriving DecidableEq

/-- Shorthand for a print effect. -/
def pr (s : String) : Effect := Effect.printLine s

/-- How the process ends: a clean `sys.exit(code)`, or an exception that
escaped every handler (CPython prints a traceback and exits 1). -/
inductive Outcome
  | exited (code : Nat)
  | uncaught (msg : String)
deriving DecidableEq

/-- The process exit code of an outcome; an uncaught exception makes the
interpreter exit with code 1. -/
def Outcome.exitCode : Outcome → Nat
  | .exited c => c
  | .uncaught _ => 1

/-- The result of a run: the trace of effects in order, and the outcome. -/
structure RunResult where
  trace : List Effect
  outcome : Outcome
deriving DecidableEq

/-- The line printed by an effect, if it is a print. -/
def lineOf : Effect → Option String
  | .printLine s => some s
  | _ => none

/-- The standard-output lines of a run, in order. -/
def RunResult.output (r : RunResult) : List String := r.trace.filterMap lineOf

/-- What `os.walk(".")` produced: the `(root, filename)` pairs yielded (in
walk order, already flattened over the per-directory file lists), and, when
the scan hits an operating-system error partway through, the error raised
after those entries. -/
structure WalkOutput where
  entries : List (String × String)
  error : Option String

/-- The filesystem as the script sees it: an existence oracle for
`os.path.exists` and the outcome of the `os.walk(".")` scan. -/
structure FS where
  pathExists : String → Bool
  walk : WalkOutput

/-- The database layer as the script sees it.  Each operation the script
performs may succeed or raise a `sqlite3.Error` carrying a message.
`tableExists n` is the truthiness of `fetchone()` after the parameterized
`sqlite_master` lookup for name `n`; `allTables` lists the catalog's table
names; `tableInfo n` yields `row[1]` (the column name) of each
`PRAGMA table_info` row in order. -/
structure DBConn where
  connect : Except String Unit
  tableExists : String → Except String Bool
  allTables : Except String (List String)
  tableInfo : String → Except String (List String)
  close : Except String Unit

/-- A table of a concrete database: its name and its column names in
declaration order. -/
structure Table where
  name : String
  cols : List String

/-- The healthy connection induced by a concrete database: every operation
succeeds and answers from the catalog.  `tableExists` is the BINARY
(case-sensitive) string equality SQLite applies to `name=?`;
`tableInfo` returns the columns of the matching table (the script only
reaches it for a name that `tableExists` accepted, so exact-name lookup
agrees with SQLite there), and the empty list for an absent table. -/
def connOfDB (tables : List Table) : DBConn where
  connect := .ok ()
  tableExists := fun n => .ok (tables.any (fun t => t.name == n))
  allTables := .ok (tables.map (fun t => t.name))
  tableInfo := fun n => .ok (((tables.find? (fun t => t.name == n)).map Table.cols).getD [])
  close := .ok ()

/-- The world the script runs against, plus a ghost counter.  `mutations`
is not visible to the script; it counts the mutating operations replayed
into the environment by `applyEffect`, so that environment preservation
under a trace is equivalent to the trace being read-only. -/
structure Env where
  dbPathVar : Option String
  fs : FS
  conn : DBConn
  mutations : Nat

/-- `DB_PATH = os.environ.get("DB_PATH", "data/app.db")` (line 11). -/
def resolvedPath (env : Env) : String := env.dbPathVar.getD "data/app.db"

/-- The SQL text of the table-existence lookup (line 34): a fixed string
with a `?` placeholder. -/
def tableExistsSQL : String :=
  "SELECT name FROM sqlite_master WHERE type=\x27table\x27 AND name=?"

/-- The table-existence query as issued (lines 33-36): constant SQL text,
the table name bound as a parameter. -/
def tableExistsQuery (t : String) : String × List String := (tableExistsSQL, [t])

/-- The SQL text of the catalog enumeration (line 41). -/
def allTablesSQL : String :=
  "SELECT name FROM sqlite_master WHERE type=\x27table\x27"

/-- The SQL text of the column introspection (line 47): the table name is
interpolated into the f-string. -/
def tableInfoSQL (t : String) : String := "PRAGMA table_info(" ++ t ++ ")"

/-- The column-introspection query as issued (line 47): interpolated SQL
text, no bound parameters. -/
def tableInfoQuery (t : String) : String × List String := (tableInfoSQL t, [])

/-- `f"Checking: \x7bDB_PATH\x7d"` (line 15). -/
def checkingLine (p : String) : String := "Checking: " ++ p

/-- `f"FAIL: Database not found at \x7bDB_PATH\x7d"` (line 19). -/
def notFoundLine (p : String) : String := "FAIL: Database not found at " ++ p

/-- Line 21. -/
def lookingLine : String := "Looking for database files..."

/-- `f"  Found: \x7bos.path.join(root, f)\x7d"` (line 25). -/
def foundLine (root f : String) : String := "  Found: " ++ root ++ "/" ++ f

/-- The filename filter of the scan (line 24):
`f.endswith(".db") or f.endswith(".sqlite")`. -/
def isDBFile (f : String) : Bool := strEndsWith f ".db" || strEndsWith f ".sqlite"

/-- `f"FAIL: Table '\x7bREQUIRED_TABLE\x7d' does not exist"` (line 38). -/
def missingTableLine : String :=
  "FAIL: Table " ++ pyq REQUIRED_TABLE ++ " does not exist"

/-- Line 40. -/
def availableTablesLine : String := "Available tables:"

/-- `f"  - \x7brow[0]\x7d"` (line 43). -/
def tableListLine (n : String) : String := "  - " ++ n

/-- `f"FAIL: Database error: \x7be\x7d"` (line 62). -/
def dbErrorLine (m : String) : String := "FAIL: Database error: " ++ m

/-- `f"FAIL: Missing columns in \x7bREQUIRED_TABLE\x7d: \x7bmissing\x7d"` (line 52). -/
def missingColsLine (missing : List String) : String :=
  "FAIL: Missing columns in " ++ REQUIRED_TABLE ++ ": " ++ pySetRepr missing

/-- `f"Available columns: \x7bcolumns\x7d"` (line 53). -/
def availColsLine (columns : List String) : String :=
  "Available columns: " ++ pySetRepr columns

/-- `f"PASS: Table '\x7bREQUIRED_TABLE\x7d' exists with required columns"` (line 56). -/
def passLine : String :=
  "PASS: Table " ++ pyq REQUIRED_TABLE ++ " exists with required columns"

/-- `f"Columns: \x7b', '.join(sorted(columns))\x7d"` (line 57). -/
def columnsLine (columns : List String) : String :=
  "Columns: " ++ String.intercalate ", " (sortStrings columns)

/-- Lines 56-59: print the PASS lines, then `conn.close()`; a close error
is still inside the `try`, so it is caught and reported. -/
def passStage (env : Env) (t : List Effect) (columns : List String) : RunResult :=
  let t3 := t ++ [pr passLine, pr (columnsLine columns), Effect.dbClose]
  match env.conn.close with
  | .error e => ⟨t3 ++ [pr (dbErrorLine e)], .exited 1⟩
  | .ok _ => ⟨t3, .exited 0⟩

/-- Lines 46-57: column introspection, missing-column check, PASS path. -/
def columnsStage (env : Env) (t : List Effect) : RunResult :=
  let t2 := t ++ [Effect.dbQuery (tableInfoQuery REQUIRED_TABLE).1 (tableInfoQuery REQUIRED_TABLE).2]
  match env.conn.tableInfo REQUIRED_TABLE with
  | .error e => ⟨t2 ++ [pr (dbErrorLine e)], .exited 1⟩
  | .ok names =>
    let columns := pySetOfList names
    let missing := REQUIRED_COLUMNS.filter (fun c => !(columns.contains c))
    if missing.isEmpty then passStage env t2 columns
    else ⟨t2 ++ [pr (missingColsLine missing), pr (availColsLine columns)], .exited 1⟩

/-- Lines 38-44: the missing-table diagnostic (printed before the catalog
enumeration runs, so an enumeration error still reports them first). -/
def missingTableStage (env : Env) (t : List Effect) : RunResult :=
  let t2 := t ++ [pr missingTableLine, pr "", pr availableTablesLine,
    Effect.dbQuery allTablesSQL []]
  match env.conn.allTables with
  | .error e => ⟨t2 ++ [pr (dbErrorLine e)], .exited 1⟩
  | .ok tabs => ⟨t2 ++ tabs.map (fun n => pr (tableListLine n)), .exited 1⟩

/-- Lines 32-44: the parameterized table-existence lookup and its branch. -/
def tableStage (env : Env) (t : List Effect) : RunResult :=
  let t1 := t ++ [Effect.dbQuery (tableExistsQuery REQUIRED_TABLE).1 (tableExistsQuery REQUIRED_TABLE).2]
  match env.conn.tableExists REQUIRED_TABLE with
  | .error e => ⟨t1 ++ [pr (dbErrorLine e)], .exited 1⟩
  | .ok b => if b then columnsStage env t1 else missingTableStage env t1

/-- Lines 28-63: the `try` block; every `sqlite3.Error` raised by an
operation inside it is caught by the single handler at line 61. -/
def connectStage (env : Env) (p : String) (t : List Effect) : RunResult :=
  let tc := t ++ [Effect.dbConnect p]
  match env.conn.connect with
  | .error e => ⟨tc ++ [pr (dbErrorLine e)], .exited 1⟩
  | .ok _ => tableStage env tc

/-- Lines 18-26: the missing-file branch.  The FAIL lines are printed, then
the advisory scan prints a `Found` line per matching yielded entry; an
operating-system error raised during the scan is not caught by anything
(the `try` block has not begun), so it escapes as an uncaught exception. -/
def notFoundStage (env : Env) (p : String) (t : List Effect) : RunResult :=
  let t2 := t ++ [pr (notFoundLine p), pr "", pr lookingLine, Effect.fsWalk]
  let founds := (env.fs.walk.entries.filter (fun e => isDBFile e.2)).map
    (fun e => pr (foundLine e.1 e.2))
  match env.fs.walk.error with
  | some m => ⟨t2 ++ founds, .uncaught m⟩
  | none => ⟨t2 ++ founds, .exited 1⟩

/-- The whole script (lines 11-63): resolve the path, print the `Checking`
line, test existence, then either the missing-file branch or the `try`
block. -/
def run (env : Env) : RunResult :=
  let p := resolvedPath env
  let t := [pr (checkingLine p), Effect.fsExists p]
  if env.fs.pathExists p then connectStage env p t else notFoundStage env p t

/-- An SQL statement is read-only when it is a `SELECT` or a `PRAGMA`
introspection; every statement the script issues is of this shape. -/
def readOnlySQL (sql : String) : Bool :=
  strStartsWith sql "SELECT" || strStartsWith sql "PRAGMA"

/-- Whether an effect leaves the external world unchanged: prints and
filesystem/database reads do; an SQL statement does exactly when its text
is read-only. -/
def Effect.isReadOnly : Effect → Bool
  | .dbQuery sql _ => readOnlySQL sql
  | _ => true

/-- Replaying an effect into the environment: a read-only effect leaves it
unchanged; a mutating one bumps the ghost `mutations` counter (standing for
an unspecified change of the world). -/
def applyEffect (env : Env) (e : Effect) : Env :=
  if e.isReadOnly then env else { env with mutations := env.mutations + 1 }

/-- The environment after replaying a whole trace. -/
def envAfter (env : Env) (t : List Effect) : Env := t.foldl applyEffect env

/-- Two characters equal up to ASCII letter case: identical, or their code
points differ by the upper/lower offset 32. -/
def charCaseEq (a b : Char) : Bool :=
  a == b || a.toNat + 32 == b.toNat || b.toNat + 32 == a.toNat

/-- Two identifier spellings that agree character by character up to ASCII
case (the equivalence SQLite itself applies to table and column names). -/
def sameUpToCase : List Char → List Char → Bool
  | [], [] => true
  | a :: as, b :: bs => charCaseEq a b && sameUpToCase as bs
  | _, _ => false

/-- `sameUpToCase` on strings. -/
def strCaseEq (a b : String) : Bool := sameUpToCase a.data b.data

/-- A filesystem on which every path exists and the scan finds nothing. -/
def fsAllExists : FS := ⟨fun _ => true, ⟨[], none⟩⟩

/-- The `users` table of the passing scenario: all required columns plus
`name`. -/
def tblC1 : Table := ⟨"users", ["id", "email", "created_at", "name"]⟩

/-- A database whose `users` table has all required columns. -/
def dbC1 : List Table := [tblC1]

/-- Environment of the passing scenario. -/
def envC1 : Env := ⟨none, fsAllExists, connOfDB dbC1, 0⟩

/-- The `users` table of the missing-columns scenario: only `id, name`. -/
def tblC1b : Table := ⟨"users", ["id", "name"]⟩

/-- A database whose `users` table lacks `email` and `created_at`. -/
def dbC1b : List Table := [tblC1b]

/-- Environment of the missing-columns scenario. -/
def envC1b : Env := ⟨none, fsAllExists, connOfDB dbC1b, 0⟩

/-- A database with a table `accounts` but no `users`. -/
def dbC2 : List Table := [⟨"accounts", ["id"]⟩]

/-- Environment of the missing-table scenario. -/
def envC2 : Env := ⟨none, fsAllExists, connOfDB dbC2, 0⟩

/-- Environment of the missing-file scenario: `DB_PATH` set, nothing
exists, the scan yields one database file and one other file. -/
def envC3 : Env :=
  ⟨some "missing/app.db",
   ⟨fun _ => false, ⟨[(".", "backup.db"), ("./docs", "readme.md")], none⟩⟩,
   connOfDB [], 0⟩

/-- A connection whose opening raises a database error. -/
def connC4 : DBConn :=
  ⟨.error "unable to open database file", fun _ => .ok false, .ok [],
   fun _ => .ok [], .ok ()⟩

/-- Environment where the file exists but opening the connection fails. -/
def envC4 : Env := ⟨none, fsAllExists, connC4, 0⟩

/-- Environment of the idempotence scenario. -/
def envC5 : Env := ⟨none, fsAllExists, connOfDB dbC1, 0⟩

/-- Environment of the scan-error scenario: the file is missing and the
directory walk raises after yielding one entry. -/
def envC7 : Env :=
  ⟨none, ⟨fun _ => false, ⟨[(".", "backup.db")], some "Permission denied"⟩⟩,
   connOfDB [], 0⟩

/-- A database whose only table is `Users` (wrong case). -/
def dbC8 : List Table := [⟨"Users", ["id", "email", "created_at"]⟩]

/-- Environment of the wrong-case-table scenario. -/
def envC8 : Env := ⟨none, fsAllExists, connOfDB dbC8, 0⟩

/-- A `users` table whose `Email` column differs from the required
`email` only in case. -/
def tblC8b : Table := ⟨"users", ["id", "Email", "created_at"]⟩

/-- A database whose `users` table spells `email` as `Email`. -/
def dbC8b : List Table := [tblC8b]

/-- Environment of the wrong-case-column scenario. -/
def envC8b : Env := ⟨none, fsAllExists, connOfDB dbC8b, 0⟩

/-- Environment where the resolved path names an existing non-database
entry (for example a directory), so opening the connection fails. -/
def envC9 : Env := ⟨some "data", fsAllExists, connC4, 0⟩

/-- A healthy connection up to `close`, which raises. -/
def connC10 : DBConn :=
  ⟨.ok (), fun _ => .ok true, .ok ["users"],
   fun _ => .ok ["id", "email", "created_at"], .error "disk I/O error"⟩

/-- Environment of the close-error scenario. -/
def envC10 : Env := ⟨none, fsAllExists, connC10, 0⟩

/-- The set-enumeration behavior of one CPython process: string hashing is
randomized per process (`PYTHONHASHSEED` unset by default), so the order
in which a process iterates a set of strings — and hence the byte order of
the set reprs printed at lines 52-53 — can differ between two successive
runs.  `enum` maps a set's contents (as the canonical first-insertion
list) to the iteration order that process uses; a possible order is a
permutation of the contents. -/
structure SetOrder where
  enum : List String → List String

/-- The enumeration of the process modelled by `run`: first-insertion
order. -/
def insertionOrder : SetOrder := ⟨fun l => l⟩

/-- An enumeration another process (another hash seed) can exhibit:
reversed first-insertion order. -/
def revOrder : SetOrder := ⟨fun l => l.reverse⟩

/-- Lines 56-59 as executed by a process with set enumeration `so`:
`sorted(columns)` iterates the set in that process's order and sorts it. -/
def passStageOrd (so : SetOrder) (env : Env) (t : List Effect) (columns : List String) :
    RunResult :=
  let t3 := t ++ [pr passLine, pr (columnsLine (so.enum columns)), Effect.dbClose]
  match env.conn.close with
  | .error e => ⟨t3 ++ [pr (dbErrorLine e)], .exited 1⟩
  | .ok _ => ⟨t3, .exited 0⟩

/-- Lines 46-57 as executed by a process with set enumeration `so`: the
reprs of the `missing` and `columns` sets at lines 52-53 are printed in
that process's iteration order. -/
def columnsStageOrd (so : SetOrder) (env : Env) (t : List Effect) : RunResult :=
  let t2 := t ++ [Effect.dbQuery (tableInfoQuery REQUIRED_TABLE).1 (tableInfoQuery REQUIRED_TABLE).2]
  match env.conn.tableInfo REQUIRED_TABLE with
  | .error e => ⟨t2 ++ [pr (dbErrorLine e)], .exited 1⟩
  | .ok names =>
    let columns := pySetOfList names
    let missing := REQUIRED_COLUMNS.filter (fun c => !(columns.contains c))
    if missing.isEmpty then passStageOrd so env t2 columns
    else ⟨t2 ++ [pr (missingColsLine (so.enum missing)), pr (availColsLine (so.enum columns))],
      .exited 1⟩

/-- Lines 32-44 as executed by a process with set enumeration `so`. -/
def tableStageOrd (so : SetOrder) (env : Env) (t : List Effect) : RunResult :=
  let t1 := t ++ [Effect.dbQuery (tableExistsQuery REQUIRED_TABLE).1 (tableExistsQuery REQUIRED_TABLE).2]
  match env.conn.tableExists REQUIRED_TABLE with
  | .error e => ⟨t1 ++ [pr (dbErrorLine e)], .exited 1⟩
  | .ok b => if b then columnsStageOrd so env t1 else missingTableStage env t1

/-- Lines 28-63 as executed by a process with set enumeration `so`. -/
def connectStageOrd (so : SetOrder) (env : Env) (p : String) (t : List Effect) : RunResult :=
  let tc := t ++ [Effect.dbConnect p]
  match env.conn.connect with
  | .error e => ⟨tc ++ [pr (dbErrorLine e)], .exited 1⟩
  | .ok _ => tableStageOrd so env tc

/-- The whole script as executed by one CPython process whose set
enumeration is `so`.  The branches taken never depend on `so` — only the
bytes of the two set-repr lines do — and `run` is the special case of the
first-insertion enumeration (`runSeeded_insertionOrder`). -/
def runSeeded (so : SetOrder) (env : Env) : RunResult :=
  let p := resolvedPath env
  let t := [pr (checkingLine p), Effect.fsExists p]
  if env.fs.pathExists p then connectStageOrd so env p t else notFoundStage env p t

/-- Environment of the set-order divergence scenario: the database holds
`users(id, name)` only (spec scenario 2), so the missing-columns reprs are
printed. -/
def envC5x : Env := ⟨none, fsAllExists, connOfDB dbC1b, 0⟩

/-- The contents of the `missing` set in that scenario, in first-insertion
order. -/
def missingC5x : List String := ["email", "created_at"]

theorem filterMap_some_eq_map {α β : Type} (f : α → β) (l : List α) :
    List.filterMap (fun a => some (f a)) l = l.map f := by
  induction l with
  | nil => rfl
  | cons x xs ih => simp [List.filterMap_cons, ih]

theorem mem_pySetAux (x : String) (l : List String) :
    ∀ seen, x ∈ pySetAux seen l ↔ (x ∈ l ∧ ¬ x ∈ seen) := by
  induction l with
  | nil => intro seen; simp [pySetAux]
  | cons y ys ih =>
    intro seen
    by_cases hy : seen.contains y = true
    · have hy' : y ∈ seen := by simpa using hy
      simp only [pySetAux, hy, if_pos, ih, List.mem_cons]
      constructor
      · rintro ⟨hx, hs⟩; exact ⟨Or.inr hx, hs⟩
      · rintro ⟨hx | hx, hs⟩
        · exact absurd (hx ▸ hy') hs
        · exact ⟨hx, hs⟩
    · have hy' : ¬ y ∈ seen := by simpa using hy
      simp only [pySetAux, hy, if_neg, Bool.false_eq_true, not_false_iff, List.mem_cons, ih]
      constructor
      · rintro (rfl | ⟨hx, hs⟩)
        · exact ⟨Or.inl rfl, hy'⟩
        · simp only [List.mem_cons, not_or] at hs
          exact ⟨Or.inr hx, hs.2⟩
      · rintro ⟨hx | hx, hs⟩
        · exact Or.inl hx
        · by_cases hxy : x = y
          · exact Or.inl hxy
          · exact Or.inr ⟨hx, by simp [List.mem_cons, not_or, hxy, hs]⟩

theorem mem_pySetOfList (x : String) (l : List String) : x ∈ pySetOfList l ↔ x ∈ l := by
  simp [pySetOfList, mem_pySetAux]

theorem isReadOnly_pr (s : String) : (pr s).isReadOnly = true := rfl

theorem isReadOnly_q1 :
    (Effect.dbQuery (tableExistsQuery REQUIRED_TABLE).1
      (tableExistsQuery REQUIRED_TABLE).2).isReadOnly = true := by
  decide

theorem isReadOnly_qAll : (Effect.dbQuery allTablesSQL []).isReadOnly = true := by decide

theorem isReadOnly_q2 :
    (Effect.dbQuery (tableInfoQuery REQUIRED_TABLE).1
      (tableInfoQuery REQUIRED_TABLE).2).isReadOnly = true := by
  decide

theorem readonly_passStage (env : Env) (t : List Effect) (columns : List String)
    (h : ∀ e ∈ t, e.isReadOnly = true) :
    ∀ e ∈ (passStage env t columns).trace, e.isReadOnly = true := by
  intro x hx
  cases h5 : env.conn.close with
  | error e =>
    simp [passStage, h5, pr] at hx
    rcases hx with hx | rfl | rfl | rfl | rfl
    · exact h x hx
    · rfl
    · rfl
    · rfl
    · rfl
  | ok v =>
    simp [passStage, h5, pr] at hx
    rcases hx with hx | rfl | rfl | rfl
    · exact h x hx
    · rfl
    · rfl
    · rfl

theorem readonly_columnsStage (env : Env) (t : List Effect)
    (h : ∀ e ∈ t, e.isReadOnly = true) :
    ∀ e ∈ (columnsStage env t).trace, e.isReadOnly = true := by
  intro x hx
  have hq : ∀ e ∈ t ++ [Effect.dbQuery (tableInfoQuery REQUIRED_TABLE).1
      (tableInfoQuery REQUIRED_TABLE).2], e.isReadOnly = true := by
    intro y hy
    rcases List.mem_append.1 hy with hy | hy
    · exact h y hy
    · rcases List.mem_singleton.1 hy with rfl
      exact isReadOnly_q2
  cases h3 : env.conn.tableInfo REQUIRED_TABLE with
  | error e =>
    simp [columnsStage, h3, pr] at hx
    rcases hx with hx | rfl | rfl
    · exact h x hx
    · exact isReadOnly_q2
    · rfl
  | ok names =>
    rw [columnsStage] at hx
    simp only [h3] at hx
    by_cases h4 : (REQUIRED_COLUMNS.filter
        (fun c => !((pySetOfList names).contains c))).isEmpty = true
    · rw [if_pos h4] at hx
      exact readonly_passStage env _ _ hq x hx
    · rw [if_neg h4] at hx
      simp [pr] at hx
      rcases hx with hx | rfl | rfl | rfl
      · exact h x hx
      · exact isReadOnly_q2
      · rfl
      · rfl

theorem readonly_missingTableStage (env : Env) (t : List Effect)
    (h : ∀ e ∈ t, e.isReadOnly = true) :
    ∀ e ∈ (missingTableStage env t).trace, e.isReadOnly = true := by
  intro x hx
  cases h3 : env.conn.allTables with
  | error e =>
    simp [missingTableStage, h3, pr] at hx
    rcases hx with hx | rfl | rfl | rfl | rfl | rfl
    · exact h x hx
    · rfl
    · rfl
    · rfl
    · exact isReadOnly_qAll
    · rfl
  | ok tabs =>
    simp [missingTableStage, h3, pr, List.mem_map] at hx
    rcases hx with hx | rfl | rfl | rfl | rfl | ⟨a, _, rfl⟩
    · exact h x hx
    · rfl
    · rfl
    · rfl
    · exact isReadOnly_qAll
    · rfl

theorem readonly_tableStage (env : Env) (t : List Effect)
    (h : ∀ e ∈ t, e.isReadOnly = true) :
    ∀ e ∈ (tableStage env t).trace, e.isReadOnly = true := by
  intro x hx
  have hq : ∀ e ∈ t ++ [Effect.dbQuery (tableExistsQuery REQUIRED_TABLE).1
      (tableExistsQuery REQUIRED_TABLE).2], e.isReadOnly = true := by
    intro y hy
    rcases List.mem_append.1 hy with hy | hy
    · exact h y hy
    · rcases List.mem_singleton.1 hy with rfl
      exact isReadOnly_q1
  cases h2 : env.conn.tableExists REQUIRED_TABLE with
  | error e =>
    simp [tableStage, h2, pr] at hx
    rcases hx with hx | rfl | rfl
    · exact h x hx
    · exact isReadOnly_q1
    · rfl
  | ok b =>
    rw [tableStage] at hx
    simp only [h2] at hx
    cases b with
    | true =>
      rw [if_pos rfl] at hx
      exact readonly_columnsStage env _ hq x hx
    | false =>
      simp only [Bool.false_eq_true, if_false] at hx
      exact readonly_missingTableStage env _ hq x hx

theorem readonly_connectStage (env : Env) (p : String) (t : List Effect)
    (h : ∀ e ∈ t, e.isReadOnly = true) :
    ∀ e ∈ (connectStage env p t).trace, e.isReadOnly = true := by
  intro x hx
  have hq : ∀ e ∈ t ++ [Effect.dbConnect p], e.isReadOnly = true := by
    intro y hy
    rcases List.mem_append.1 hy with hy | hy
    · exact h y hy
    · rcases List.mem_singleton.1 hy with rfl
      rfl
  cases h1 : env.conn.connect with
  | error e =>
    simp [connectStage, h1, pr] at hx
    rcases hx with hx | rfl | rfl
    · exact h x hx
    · rfl
    · rfl
  | ok u =>
    rw [connectStage] at hx
    simp only [h1] at hx
    exact readonly_tableStage env _ hq x hx

theorem readonly_notFoundStage (env : Env) (p : String) (t : List Effect)
    (h : ∀ e ∈ t, e.isReadOnly = true) :
    ∀ e ∈ (notFoundStage env p t).trace, e.isReadOnly = true := by
  intro x hx
  cases he : env.fs.walk.error with
  | some m =>
    simp [notFoundStage, he, pr, List.mem_map] at hx
    rcases hx with hx | rfl | rfl | rfl | rfl | ⟨a, b, _, rfl⟩
    · exact h x hx
    · rfl
    · rfl
    · rfl
    · rfl
    · rfl
  | none =>
    simp [notFoundStage, he, pr, List.mem_map] at hx
    rcases hx with hx | rfl | rfl | rfl | rfl | ⟨a, b, _, rfl⟩
    · exact h x hx
    · rfl
    · rfl
    · rfl
    · rfl
    · rfl

theorem readonly_run (env : Env) : ∀ e ∈ (run env).trace, e.isReadOnly = true := by
  have hbase : ∀ e ∈ [pr (checkingLine (resolvedPath env)),
      Effect.fsExists (resolvedPath env)], e.isReadOnly = true := by
    intro y hy
    rcases List.mem_cons.1 hy with rfl | hy
    · rfl
    · rcases List.mem_singleton.1 hy with rfl
      rfl
  rw [run]
  by_cases hp : env.fs.pathExists (resolvedPath env) = true
  · rw [if_pos hp]
    exact readonly_connectStage env _ _ hbase
  · rw [if_neg hp]
    exact readonly_notFoundStage env _ _ hbase

theorem envAfter_of_readonly (t : List Effect) :
    ∀ env : Env, (∀ e ∈ t, e.isReadOnly = true) → envAfter env t = env := by
  induction t with
  | nil => intro env _; rfl
  | cons x xs ih =>
    intro env h
    have hx : x.isReadOnly = true := h x (List.mem_cons_self x xs)
    have hxs : ∀ e ∈ xs, e.isReadOnly = true := fun e he => h e (List.mem_cons_of_mem x he)
    simp only [envAfter, List.foldl_cons, applyEffect, hx, if_pos]
    exact ih env hxs

theorem run_table_absent (tables : List Table) (env : Env)
    (hc : env.conn = connOfDB tables)
    (hp : env.fs.pathExists (resolvedPath env) = true)
    (hany : tables.any (fun u => u.name == REQUIRED_TABLE) = false) :
    run env = ⟨[pr (checkingLine (resolvedPath env)), Effect.fsExists (resolvedPath env),
      Effect.dbConnect (resolvedPath env),
      Effect.dbQuery (tableExistsQuery REQUIRED_TABLE).1 (tableExistsQuery REQUIRED_TABLE).2,
      pr missingTableLine, pr "", pr availableTablesLine, Effect.dbQuery allTablesSQL []]
      ++ tables.map (fun u => pr (tableListLine u.name)), .exited 1⟩ := by
  simp [run, connectStage, tableStage, missingTableStage, hp, hc, connOfDB, hany, pr,
    List.map_map, Function.comp_def]

theorem run_users_pass (tables : List Table) (t : Table) (env : Env)
    (hc : env.conn = connOfDB tables)
    (hp : env.fs.pathExists (resolvedPath env) = true)
    (hf : tables.find? (fun u => u.name == REQUIRED_TABLE) = some t)
    (hcond : ∀ a ∈ REQUIRED_COLUMNS, a ∈ pySetOfList t.cols) :
    run env = ⟨[pr (checkingLine (resolvedPath env)), Effect.fsExists (resolvedPath env),
      Effect.dbConnect (resolvedPath env),
      Effect.dbQuery (tableExistsQuery REQUIRED_TABLE).1 (tableExistsQuery REQUIRED_TABLE).2,
      Effect.dbQuery (tableInfoQuery REQUIRED_TABLE).1 (tableInfoQuery REQUIRED_TABLE).2,
      pr passLine, pr (columnsLine (pySetOfList t.cols)), Effect.dbClose], .exited 0⟩ := by
  have hmem : t ∈ tables := List.mem_of_find?_eq_some hf
  have hname : (t.name == REQUIRED_TABLE) = true :=
    @List.find?_some Table (fun u => u.name == REQUIRED_TABLE) t tables hf
  have hany : tables.any (fun u => u.name == REQUIRED_TABLE) = true := by
    simp only [List.any_eq_true]
    exact ⟨t, hmem, hname⟩
  have hinfo : ((tables.find? (fun u => u.name == REQUIRED_TABLE)).map Table.cols).getD []
      = t.cols := by
    rw [hf]; rfl
  simp [run, connectStage, tableStage, columnsStage, passStage, hp, hc, connOfDB, hany, hinfo, pr]
  exact hcond

theorem run_users_misscols (tables : List Table) (t : Table) (env : Env)
    (hc : env.conn = connOfDB tables)
    (hp : env.fs.pathExists (resolvedPath env) = true)
    (hf : tables.find? (fun u => u.name == REQUIRED_TABLE) = some t)
    (hcond : ¬ ∀ a ∈ REQUIRED_COLUMNS, a ∈ pySetOfList t.cols) :
    run env = ⟨[pr (checkingLine (resolvedPath env)), Effect.fsExists (resolvedPath env),
      Effect.dbConnect (resolvedPath env),
      Effect.dbQuery (tableExistsQuery REQUIRED_TABLE).1 (tableExistsQuery REQUIRED_TABLE).2,
      Effect.dbQuery (tableInfoQuery REQUIRED_TABLE).1 (tableInfoQuery REQUIRED_TABLE).2,
      pr (missingColsLine (REQUIRED_COLUMNS.filter (fun c => !((pySetOfList t.cols).contains c)))),
      pr (availColsLine (pySetOfList t.cols))], .exited 1⟩ := by
  have hmem : t ∈ tables := List.mem_of_find?_eq_some hf
  have hname : (t.name == REQUIRED_TABLE) = true :=
    @List.find?_some Table (fun u => u.name == REQUIRED_TABLE) t tables hf
  have hany : tables.any (fun u => u.name == REQUIRED_TABLE) = true := by
    simp only [List.any_eq_true]
    exact ⟨t, hmem, hname⟩
  have hinfo : ((tables.find? (fun u => u.name == REQUIRED_TABLE)).map Table.cols).getD []
      = t.cols := by
    rw [hf]; rfl
  simp [run, connectStage, tableStage, columnsStage, passStage, hp, hc, connOfDB, hany, hinfo, pr]
  push_neg at hcond
  exact hcond

/-- Claim C1: for every database containing the table `users`, if the
observed column-name set is a superset of the required set
`id, email, created_at`, the run prints the PASS line, the full observed
column list sorted and comma-joined, and exits 0; if any required column is
absent, the run prints a FAIL line carrying exactly the set difference
required-minus-observed and exits 1. -/
theorem c1_column_superset_pass_or_missing_fail (tables : List Table) (t : Table) (env : Env)
    (hc : env.conn = connOfDB tables)
    (hp : env.fs.pathExists (resolvedPath env) = true)
    (hf : tables.find? (fun u => u.name == REQUIRED_TABLE) = some t) :
    ((∀ c ∈ REQUIRED_COLUMNS, c ∈ t.cols) →
      (run env).output = [checkingLine (resolvedPath env), passLine,
        columnsLine (pySetOfList t.cols)]
      ∧ (run env).outcome = .exited 0)
    ∧ ((∃ c ∈ REQUIRED_COLUMNS, c ∉ t.cols) →
      (run env).output = [checkingLine (resolvedPath env),
        missingColsLine (REQUIRED_COLUMNS.filter (fun c => !((pySetOfList t.cols).contains c))),
        availColsLine (pySetOfList t.cols)]
      ∧ (run env).outcome = .exited 1
      ∧ ∀ c, c ∈ REQUIRED_COLUMNS.filter (fun c => !((pySetOfList t.cols).contains c)) ↔
          (c ∈ REQUIRED_COLUMNS ∧ c ∉ t.cols)) := by
  constructor
  · intro hsup
    have hcond : ∀ a ∈ REQUIRED_COLUMNS, a ∈ pySetOfList t.cols := by
      intro a ha; rw [mem_pySetOfList]; exact hsup a ha
    rw [run_users_pass tables t env hc hp hf hcond]
    simp [RunResult.output, lineOf, pr]
  · rintro ⟨c0, hc0r, hc0⟩
    have hcond : ¬ ∀ a ∈ REQUIRED_COLUMNS, a ∈ pySetOfList t.cols := by
      intro hall
      exact hc0 ((mem_pySetOfList c0 t.cols).1 (hall c0 hc0r))
    rw [run_users_misscols tables t env hc hp hf hcond]
    refine ⟨?_, rfl, ?_⟩
    · simp [RunResult.output, lineOf, pr]
    · intro c
      simp [List.mem_filter, mem_pySetOfList]

theorem c1_column_superset_pass_or_missing_fail_witness :
    dbC1.find? (fun u => u.name == REQUIRED_TABLE) = some tblC1
    ∧ ((run envC1).output = [checkingLine (resolvedPath envC1), passLine,
        columnsLine (pySetOfList tblC1.cols)]
      ∧ (run envC1).outcome = .exited 0)
    ∧ ((run envC1b).output = [checkingLine (resolvedPath envC1b),
        missingColsLine (REQUIRED_COLUMNS.filter
          (fun c => !((pySetOfList tblC1b.cols).contains c))),
        availColsLine (pySetOfList tblC1b.cols)]
      ∧ (run envC1b).outcome = .exited 1
      ∧ ∀ c, c ∈ REQUIRED_COLUMNS.filter (fun c => !((pySetOfList tblC1b.cols).contains c)) ↔
          (c ∈ REQUIRED_COLUMNS ∧ c ∉ tblC1b.cols)) :=
  ⟨rfl,
   (c1_column_superset_pass_or_missing_fail dbC1 tblC1 envC1 rfl rfl rfl).1 (by decide),
   (c1_column_superset_pass_or_missing_fail dbC1b tblC1b envC1b rfl rfl rfl).2
     ⟨"email", by decide, by decide⟩⟩

/-- Claim C2: for every database that exists and opens but has no table
named `users`, the run prints the missing-table FAIL line and then exactly
the catalog's table names (possibly none), and exits 1. -/
theorem c2_missing_table_lists_catalog (tables : List Table) (env : Env)
    (hc : env.conn = connOfDB tables)
    (hp : env.fs.pathExists (resolvedPath env) = true)
    (hn : ∀ u ∈ tables, u.name ≠ REQUIRED_TABLE) :
    (run env).output =
      [checkingLine (resolvedPath env), missingTableLine, "", availableTablesLine]
        ++ tables.map (fun u => tableListLine u.name)
    ∧ (run env).outcome = .exited 1 := by
  have hany : tables.any (fun t => t.name == REQUIRED_TABLE) = false := by
    simp only [List.any_eq_false, beq_iff_eq]
    exact hn
  rw [run_table_absent tables env hc hp hany]
  simp [RunResult.output, lineOf, pr, List.filterMap_map, Function.comp_def,
    filterMap_some_eq_map]

theorem c2_missing_table_lists_catalog_witness :
    (∀ u ∈ dbC2, u.name ≠ REQUIRED_TABLE)
    ∧ ((run envC2).output =
        [checkingLine (resolvedPath envC2), missingTableLine, "", availableTablesLine]
          ++ dbC2.map (fun u => tableListLine u.name)
      ∧ (run envC2).outcome = .exited 1) :=
  ⟨by decide, c2_missing_table_lists_catalog dbC2 envC2 rfl rfl (by decide)⟩

/-- Claim C3: whenever no filesystem entry exists at the resolved path (any
`DB_PATH` value or the default), the run prints the not-found FAIL line and
exits with code 1 regardless of the rest of the filesystem; the advisory
scan only appends `Found` lines for matching files and never changes the
outcome or the exit code. -/
theorem c3_missing_file_fail_and_advisory_scan (env : Env)
    (h : env.fs.pathExists (resolvedPath env) = false) :
    (run env).output =
      [checkingLine (resolvedPath env), notFoundLine (resolvedPath env), "", lookingLine]
        ++ ((env.fs.walk.entries.filter (fun e => isDBFile e.2)).map
          (fun e => foundLine e.1 e.2))
    ∧ (run env).outcome.exitCode = 1 := by
  cases he : env.fs.walk.error <;>
    simp [run, notFoundStage, h, he, RunResult.output, lineOf, pr, Outcome.exitCode,
      List.filterMap_map, Function.comp_def, filterMap_some_eq_map]

theorem c3_missing_file_fail_and_advisory_scan_witness :
    envC3.fs.pathExists (resolvedPath envC3) = false
    ∧ ((run envC3).output =
        [checkingLine (resolvedPath envC3), notFoundLine (resolvedPath envC3), "", lookingLine]
          ++ ((envC3.fs.walk.entries.filter (fun e => isDBFile e.2)).map
            (fun e => foundLine e.1 e.2))
      ∧ (run envC3).outcome.exitCode = 1) :=
  ⟨rfl, c3_missing_file_fail_and_advisory_scan envC3 rfl⟩

/-- Claim C4: any database-layer error raised while opening the connection,
querying the catalog (either query), or introspecting columns is caught by
the single generic handler, reported as the database-error FAIL line with
the error message passed through verbatim, and the run exits with a clean
`sys.exit(1)` — distinct from the structural failure conditions and never
silent. -/
theorem c4_sqlite_errors_caught_generically :
    (∀ (env : Env) (e : String), env.fs.pathExists (resolvedPath env) = true →
      env.conn.connect = .error e →
      (run env).output = [checkingLine (resolvedPath env), dbErrorLine e] ∧
      (run env).outcome = .exited 1)
    ∧ (∀ (env : Env) (e : String), env.fs.pathExists (resolvedPath env) = true →
      env.conn.connect = .ok () →
      env.conn.tableExists REQUIRED_TABLE = .error e →
      (run env).output = [checkingLine (resolvedPath env), dbErrorLine e] ∧
      (run env).outcome = .exited 1)
    ∧ (∀ (env : Env) (e : String), env.fs.pathExists (resolvedPath env) = true →
      env.conn.connect = .ok () →
      env.conn.tableExists REQUIRED_TABLE = .ok false →
      env.conn.allTables = .error e →
      (run env).output = [checkingLine (resolvedPath env), missingTableLine, "",
        availableTablesLine, dbErrorLine e] ∧
      (run env).outcome = .exited 1)
    ∧ (∀ (env : Env) (e : String), env.fs.pathExists (resolvedPath env) = true →
      env.conn.connect = .ok () →
      env.conn.tableExists REQUIRED_TABLE = .ok true →
      env.conn.tableInfo REQUIRED_TABLE = .error e →
      (run env).output = [checkingLine (resolvedPath env), dbErrorLine e] ∧
      (run env).outcome = .exited 1) := by
  refine ⟨?_, ?_, ?_, ?_⟩
  · intro env e hp h1
    simp [run, connectStage, hp, h1, RunResult.output, lineOf, pr]
  · intro env e hp h1 h2
    simp [run, connectStage, tableStage, hp, h1, h2, RunResult.output, lineOf, pr]
  · intro env e hp h1 h2 h3
    simp [run, connectStage, tableStage, missingTableStage, hp, h1, h2, h3,
      RunResult.output, lineOf, pr]
  · intro env e hp h1 h2 h3
    simp [run, connectStage, tableStage, columnsStage, hp, h1, h2, h3,
      RunResult.output, lineOf, pr]

theorem c4_sqlite_errors_caught_generically_witness :
    envC4.conn.connect = .error "unable to open database file"
    ∧ ((run envC4).output =
        [checkingLine (resolvedPath envC4), dbErrorLine "unable to open database file"]
      ∧ (run envC4).outcome = .exited 1) :=
  ⟨rfl, c4_sqlite_errors_caught_generically.1 envC4 "unable to open database file" rfl rfl⟩

/-- Claim C6: the table-existence lookup has a fixed SQL text independent of
the table name, which is bound as a query parameter; the column
introspection, by contrast, interpolates the table name directly into its
SQL text and binds nothing. -/
theorem c6_table_lookup_bound_info_interpolated :
    (∀ t1 t2 : String, (tableExistsQuery t1).1 = (tableExistsQuery t2).1)
    ∧ (∀ t : String, (tableExistsQuery t).2 = [t])
    ∧ (∀ t : String, (tableInfoQuery t).1 = "PRAGMA table_info(" ++ t ++ ")"
        ∧ (tableInfoQuery t).2 = [])
    ∧ (tableInfoQuery "a").1 ≠ (tableInfoQuery "b").1 := by
  refine ⟨fun t1 t2 => rfl, fun t => rfl, fun t => ⟨rfl, rfl⟩, by decide⟩

theorem c6_table_lookup_bound_info_interpolated_witness :
    (tableExistsQuery "users").1 = (tableExistsQuery "accounts").1
    ∧ (tableExistsQuery "users").2 = ["users"] :=
  ⟨c6_table_lookup_bound_info_interpolated.1 "users" "accounts",
   c6_table_lookup_bound_info_interpolated.2.1 "users"⟩

/-- Claim C7: an operating-system error raised by the advisory directory
scan on the missing-file path has no containment around it — the `try`
block has not begun — so it escapes the run as an uncaught failure (after
the FAIL line was already printed). -/
theorem c7_scan_error_escapes_uncontained (env : Env) (m : String)
    (h : env.fs.pathExists (resolvedPath env) = false)
    (he : env.fs.walk.error = some m) :
    (run env).outcome = .uncaught m ∧
    notFoundLine (resolvedPath env) ∈ (run env).output := by
  simp [run, notFoundStage, h, he, RunResult.output, lineOf, pr, List.filterMap_map,
    Function.comp_def, filterMap_some_eq_map]

theorem c7_scan_error_escapes_uncontained_witness :
    envC7.fs.pathExists (resolvedPath envC7) = false
    ∧ envC7.fs.walk.error = some "Permission denied"
    ∧ ((run envC7).outcome = .uncaught "Permission denied"
      ∧ notFoundLine (resolvedPath envC7) ∈ (run envC7).output) :=
  ⟨rfl, rfl, c7_scan_error_escapes_uncontained envC7 "Permission denied" rfl rfl⟩

/-- Claim C8: both name comparisons are exact, case-sensitive string
equality: a catalog whose only table name differs from `users` in letter
case alone takes the missing-table FAIL path, and a `users` table whose
column spells a required name with different case has that required column
reported missing. -/
theorem c8_name_comparison_case_sensitive :
    (∀ (tables : List Table) (env : Env), env.conn = connOfDB tables →
      env.fs.pathExists (resolvedPath env) = true →
      (∀ u ∈ tables, u.name ≠ REQUIRED_TABLE) →
      (∃ u ∈ tables, strCaseEq u.name REQUIRED_TABLE = true) →
      missingTableLine ∈ (run env).output ∧ (run env).outcome = .exited 1)
    ∧ (∀ (tables : List Table) (t : Table) (env : Env), env.conn = connOfDB tables →
      env.fs.pathExists (resolvedPath env) = true →
      tables.find? (fun u => u.name == REQUIRED_TABLE) = some t →
      "email" ∉ t.cols → (∃ c ∈ t.cols, strCaseEq c "email" = true) →
      "email" ∈ REQUIRED_COLUMNS.filter (fun c => !((pySetOfList t.cols).contains c)) ∧
      missingColsLine (REQUIRED_COLUMNS.filter (fun c => !((pySetOfList t.cols).contains c)))
        ∈ (run env).output ∧
      (run env).outcome = .exited 1) := by
  constructor
  · intro tables env hc hp hn _
    have hany : tables.any (fun u => u.name == REQUIRED_TABLE) = false := by
      simp only [List.any_eq_false, beq_iff_eq]
      exact hn
    rw [run_table_absent tables env hc hp hany]
    simp [RunResult.output, lineOf, pr, List.filterMap_map, Function.comp_def,
      filterMap_some_eq_map]
  · intro tables t env hc hp hf hmail _
    have hcond : ¬ ∀ a ∈ REQUIRED_COLUMNS, a ∈ pySetOfList t.cols := by
      intro hall
      have : "email" ∈ pySetOfList t.cols := by
        apply hall
        simp [REQUIRED_COLUMNS]
      rw [mem_pySetOfList] at this
      exact hmail this
    rw [run_users_misscols tables t env hc hp hf hcond]
    refine ⟨?_, ?_, rfl⟩
    · rw [List.mem_filter]
      constructor
      · simp [REQUIRED_COLUMNS]
      · simp [mem_pySetOfList, hmail]
    · simp [RunResult.output, lineOf, pr]

theorem c8_name_comparison_case_sensitive_witness :
    (∀ u ∈ dbC8, u.name ≠ REQUIRED_TABLE)
    ∧ (∃ u ∈ dbC8, strCaseEq u.name REQUIRED_TABLE = true)
    ∧ (missingTableLine ∈ (run envC8).output ∧ (run envC8).outcome = .exited 1)
    ∧ "email" ∉ tblC8b.cols
    ∧ ("email" ∈ REQUIRED_COLUMNS.filter (fun c => !((pySetOfList tblC8b.cols).contains c))
      ∧ missingColsLine (REQUIRED_COLUMNS.filter
          (fun c => !((pySetOfList tblC8b.cols).contains c))) ∈ (run envC8b).output
      ∧ (run envC8b).outcome = .exited 1) :=
  ⟨by decide, by decide,
   c8_name_comparison_case_sensitive.1 dbC8 envC8 rfl rfl (by decide) (by decide),
   by decide,
   c8_name_comparison_case_sensitive.2 dbC8b tblC8b envC8b rfl rfl rfl (by decide) (by decide)⟩

/-- Claim C9: when a filesystem entry exists at the resolved path but is
not a usable database (for example a directory), the existence check
passes, the run proceeds to open the connection, and the failure is
reported as the generic database-error condition with exit code 1 — the
not-found line is never printed and the advisory scan never runs. -/
theorem c9_existing_path_never_notfound (env : Env) (e : String)
    (hp : env.fs.pathExists (resolvedPath env) = true)
    (hc : env.conn.connect = .error e) :
    (run env).output = [checkingLine (resolvedPath env), dbErrorLine e]
    ∧ (run env).outcome.exitCode = 1
    ∧ Effect.fsWalk ∉ (run env).trace := by
  simp [run, connectStage, hp, hc, RunResult.output, lineOf, pr, Outcome.exitCode]

theorem c9_existing_path_never_notfound_witness :
    envC9.fs.pathExists (resolvedPath envC9) = true
    ∧ ((run envC9).output = [checkingLine (resolvedPath envC9),
        dbErrorLine "unable to open database file"]
      ∧ (run envC9).outcome.exitCode = 1
      ∧ Effect.fsWalk ∉ (run envC9).trace)
    ∧ notFoundLine (resolvedPath envC9) ∉ (run envC9).output :=
  ⟨rfl, c9_existing_path_never_notfound envC9 "unable to open database file" rfl rfl,
   by decide⟩

/-- Claim C10: the connection release happens after the PASS lines are
printed and inside the error-catching region: the close effect occurs only
on runs that printed the PASS line (so on every FAIL path it is never
invoked), and when closing raises a database error the output contains both
the PASS lines and the database-error FAIL line with exit code 1 — a
printed PASS line does not by itself guarantee exit code 0. -/
theorem c10_close_error_after_pass :
    (∀ env : Env, Effect.dbClose ∈ (run env).trace → passLine ∈ (run env).output)
    ∧ (∀ (env : Env) (e : String) (names : List String),
      env.fs.pathExists (resolvedPath env) = true →
      env.conn.connect = .ok () →
      env.conn.tableExists REQUIRED_TABLE = .ok true →
      env.conn.tableInfo REQUIRED_TABLE = .ok names →
      (∀ c ∈ REQUIRED_COLUMNS, c ∈ names) →
      env.conn.close = .error e →
      (run env).output = [checkingLine (resolvedPath env), passLine,
        columnsLine (pySetOfList names), dbErrorLine e]
      ∧ (run env).outcome = .exited 1) := by
  constructor
  · intro env hmem
    by_cases hp : env.fs.pathExists (resolvedPath env) = true
    case neg =>
      rw [Bool.not_eq_true] at hp
      cases he : env.fs.walk.error <;>
        simp [run, notFoundStage, hp, he, pr, List.mem_map] at hmem
    case pos =>
      cases h1 : env.conn.connect with
      | error e => simp [run, connectStage, hp, h1, pr] at hmem
      | ok u =>
        cases h2 : env.conn.tableExists REQUIRED_TABLE with
        | error e => simp [run, connectStage, tableStage, hp, h1, h2, pr] at hmem
        | ok b =>
          cases b with
          | false =>
            cases h3 : env.conn.allTables with
            | error e =>
              simp [run, connectStage, tableStage, missingTableStage, hp, h1, h2, h3, pr] at hmem
            | ok tabs =>
              simp [run, connectStage, tableStage, missingTableStage, hp, h1, h2, h3, pr,
                List.mem_map] at hmem
          | true =>
            cases h3 : env.conn.tableInfo REQUIRED_TABLE with
            | error e =>
              simp [run, connectStage, tableStage, columnsStage, hp, h1, h2, h3, pr] at hmem
            | ok names =>
              by_cases h4 : ∀ a ∈ REQUIRED_COLUMNS, a ∈ pySetOfList names
              · cases h5 : env.conn.close with
                | error e =>
                  simp [run, connectStage, tableStage, columnsStage, passStage, hp, h1, h2,
                    h3, h5, RunResult.output, lineOf, pr]
                  rw [if_pos h4]
                  exact ⟨pr passLine, by simp [pr], rfl⟩
                | ok v =>
                  simp [run, connectStage, tableStage, columnsStage, passStage, hp, h1, h2,
                    h3, h5, RunResult.output, lineOf, pr]
                  rw [if_pos h4]
                  exact ⟨pr passLine, by simp [pr], rfl⟩
              · cases h5 : env.conn.close with
                | error e =>
                  simp [run, connectStage, tableStage, columnsStage, passStage, hp, h1, h2,
                    h3, h5, pr] at hmem
                  rw [if_neg h4] at hmem
                  simp at hmem
                | ok v =>
                  simp [run, connectStage, tableStage, columnsStage, passStage, hp, h1, h2,
                    h3, h5, pr] at hmem
                  rw [if_neg h4] at hmem
                  simp at hmem
  · intro env e names hp h1 h2 h3 hsup h5
    have hcond : ∀ a ∈ REQUIRED_COLUMNS, a ∈ pySetOfList names := by
      intro a ha; rw [mem_pySetOfList]; exact hsup a ha
    simp [run, connectStage, tableStage, columnsStage, passStage, hp, h1, h2, h3, h5,
      RunResult.output, lineOf, pr]
    rw [if_pos hcond]
    simp [RunResult.output, lineOf, pr]

theorem c10_close_error_after_pass_witness :
    passLine ∈ (run envC10).output
    ∧ ((run envC10).output = [checkingLine (resolvedPath envC10), passLine,
        columnsLine (pySetOfList ["id", "email", "created_at"]),
        dbErrorLine "disk I/O error"]
      ∧ (run envC10).outcome = .exited 1) :=
  ⟨c10_close_error_after_pass.1 envC10 (by decide),
   c10_close_error_after_pass.2 envC10 "disk I/O error" ["id", "email", "created_at"]
     rfl rfl rfl rfl (by decide) rfl⟩

theorem passStageOrd_insertion (env : Env) (t : List Effect) (columns : List String) :
    passStageOrd insertionOrder env t columns = passStage env t columns := by
  cases h : env.conn.close <;> simp [passStageOrd, passStage, insertionOrder, h]

theorem columnsStageOrd_insertion (env : Env) (t : List Effect) :
    columnsStageOrd insertionOrder env t = columnsStage env t := by
  cases h : env.conn.tableInfo REQUIRED_TABLE with
  | error e => simp [columnsStageOrd, columnsStage, h]
  | ok names =>
    rw [columnsStageOrd, columnsStage]
    simp only [h]
    by_cases h4 : (REQUIRED_COLUMNS.filter
        (fun c => !((pySetOfList names).contains c))).isEmpty = true
    · rw [if_pos h4, if_pos h4]
      exact passStageOrd_insertion env _ _
    · rw [if_neg h4, if_neg h4]
      simp [insertionOrder]

theorem tableStageOrd_insertion (env : Env) (t : List Effect) :
    tableStageOrd insertionOrder env t = tableStage env t := by
  cases h : env.conn.tableExists REQUIRED_TABLE with
  | error e => simp [tableStageOrd, tableStage, h]
  | ok b =>
    rw [tableStageOrd, tableStage]
    simp only [h]
    cases b with
    | true =>
      rw [if_pos rfl, if_pos rfl]
      exact columnsStageOrd_insertion env _
    | false => simp only [Bool.false_eq_true, if_false]

theorem connectStageOrd_insertion (env : Env) (p : String) (t : List Effect) :
    connectStageOrd insertionOrder env p t = connectStage env p t := by
  cases h : env.conn.connect with
  | error e => simp [connectStageOrd, connectStage, h]
  | ok u =>
    rw [connectStageOrd, connectStage]
    simp only [h]
    exact tableStageOrd_insertion env _

theorem runSeeded_insertionOrder (env : Env) : runSeeded insertionOrder env = run env := by
  rw [runSeeded, run]
  by_cases hp : env.fs.pathExists (resolvedPath env) = true
  · rw [if_pos hp, if_pos hp]
    exact connectStageOrd_insertion env _ _
  · rw [if_neg hp, if_neg hp]

theorem missingTableStage_outcome (env : Env) (t1 t2 : List Effect) :
    (missingTableStage env t1).outcome = (missingTableStage env t2).outcome := by
  cases h : env.conn.allTables <;> simp [missingTableStage, h]

theorem passStageOrd_outcome (so1 so2 : SetOrder) (env : Env) (t1 t2 : List Effect)
    (c1 c2 : List String) :
    (passStageOrd so1 env t1 c1).outcome = (passStageOrd so2 env t2 c2).outcome := by
  cases h : env.conn.close <;> simp [passStageOrd, h]

theorem columnsStageOrd_outcome (so1 so2 : SetOrder) (env : Env) (t1 t2 : List Effect) :
    (columnsStageOrd so1 env t1).outcome = (columnsStageOrd so2 env t2).outcome := by
  cases h : env.conn.tableInfo REQUIRED_TABLE with
  | error e => simp [columnsStageOrd, h]
  | ok names =>
    rw [columnsStageOrd, columnsStageOrd]
    simp only [h]
    by_cases h4 : (REQUIRED_COLUMNS.filter
        (fun c => !((pySetOfList names).contains c))).isEmpty = true
    · rw [if_pos h4, if_pos h4]
      exact passStageOrd_outcome so1 so2 env _ _ _ _
    · rw [if_neg h4, if_neg h4]

theorem tableStageOrd_outcome (so1 so2 : SetOrder) (env : Env) (t1 t2 : List Effect) :
    (tableStageOrd so1 env t1).outcome = (tableStageOrd so2 env t2).outcome := by
  cases h : env.conn.tableExists REQUIRED_TABLE with
  | error e => simp [tableStageOrd, h]
  | ok b =>
    rw [tableStageOrd, tableStageOrd]
    simp only [h]
    cases b with
    | true =>
      rw [if_pos rfl, if_pos rfl]
      exact columnsStageOrd_outcome so1 so2 env _ _
    | false =>
      simp only [Bool.false_eq_true, if_false]
      exact missingTableStage_outcome env _ _

theorem connectStageOrd_outcome (so1 so2 : SetOrder) (env : Env) (p : String)
    (t1 t2 : List Effect) :
    (connectStageOrd so1 env p t1).outcome = (connectStageOrd so2 env p t2).outcome := by
  cases h : env.conn.connect with
  | error e => simp [connectStageOrd, h]
  | ok u =>
    rw [connectStageOrd, connectStageOrd]
    simp only [h]
    exact tableStageOrd_outcome so1 so2 env _ _

theorem runSeeded_outcome_indep (so1 so2 : SetOrder) (env : Env) :
    (runSeeded so1 env).outcome = (runSeeded so2 env).outcome := by
  rw [runSeeded, runSeeded]
  by_cases hp : env.fs.pathExists (resolvedPath env) = true
  · rw [if_pos hp, if_pos hp]
    exact connectStageOrd_outcome so1 so2 env _ _ _
  · rw [if_neg hp, if_neg hp]

theorem readonly_passStageOrd (so : SetOrder) (env : Env) (t : List Effect)
    (columns : List String) (h : ∀ e ∈ t, e.isReadOnly = true) :
    ∀ e ∈ (passStageOrd so env t columns).trace, e.isReadOnly = true := by
  intro x hx
  cases h5 : env.conn.close with
  | error e =>
    simp [passStageOrd, h5, pr] at hx
    rcases hx with hx | rfl | rfl | rfl | rfl
    · exact h x hx
    · rfl
    · rfl
    · rfl
    · rfl
  | ok v =>
    simp [passStageOrd, h5, pr] at hx
    rcases hx with hx | rfl | rfl | rfl
    · exact h x hx
    · rfl
    · rfl
    · rfl

theorem readonly_columnsStageOrd (so : SetOrder) (env : Env) (t : List Effect)
    (h : ∀ e ∈ t, e.isReadOnly = true) :
    ∀ e ∈ (columnsStageOrd so env t).trace, e.isReadOnly = true := by
  intro x hx
  have hq : ∀ e ∈ t ++ [Effect.dbQuery (tableInfoQuery REQUIRED_TABLE).1
      (tableInfoQuery REQUIRED_TABLE).2], e.isReadOnly = true := by
    intro y hy
    rcases List.mem_append.1 hy with hy | hy
    · exact h y hy
    · rcases List.mem_singleton.1 hy with rfl
      exact isReadOnly_q2
  cases h3 : env.conn.tableInfo REQUIRED_TABLE with
  | error e =>
    simp [columnsStageOrd, h3, pr] at hx
    rcases hx with hx | rfl | rfl
    · exact h x hx
    · exact isReadOnly_q2
    · rfl
  | ok names =>
    rw [columnsStageOrd] at hx
    simp only [h3] at hx
    by_cases h4 : (REQUIRED_COLUMNS.filter
        (fun c => !((pySetOfList names).contains c))).isEmpty = true
    · rw [if_pos h4] at hx
      exact readonly_passStageOrd so env _ _ hq x hx
    · rw [if_neg h4] at hx
      simp [pr] at hx
      rcases hx with hx | rfl | rfl | rfl
      · exact h x hx
      · exact isReadOnly_q2
      · rfl
      · rfl

theorem readonly_tableStageOrd (so : SetOrder) (env : Env) (t : List Effect)
    (h : ∀ e ∈ t, e.isReadOnly = true) :
    ∀ e ∈ (tableStageOrd so env t).trace, e.isReadOnly = true := by
  intro x hx
  have hq : ∀ e ∈ t ++ [Effect.dbQuery (tableExistsQuery REQUIRED_TABLE).1
      (tableExistsQuery REQUIRED_TABLE).2], e.isReadOnly = true := by
    intro y hy
    rcases List.mem_append.1 hy with hy | hy
    · exact h y hy
    · rcases List.mem_singleton.1 hy with rfl
      exact isReadOnly_q1
  cases h2 : env.conn.tableExists REQUIRED_TABLE with
  | error e =>
    simp [tableStageOrd, h2, pr] at hx
    rcases hx with hx | rfl | rfl
    · exact h x hx
    · exact isReadOnly_q1
    · rfl
  | ok b =>
    rw [tableStageOrd] at hx
    simp only [h2] at hx
    cases b with
    | true =>
      rw [if_pos rfl] at hx
      exact readonly_columnsStageOrd so env _ hq x hx
    | false =>
      simp only [Bool.false_eq_true, if_false] at hx
      exact readonly_missingTableStage env _ hq x hx

theorem readonly_connectStageOrd (so : SetOrder) (env : Env) (p : String) (t : List Effect)
    (h : ∀ e ∈ t, e.isReadOnly = true) :
    ∀ e ∈ (connectStageOrd so env p t).trace, e.isReadOnly = true := by
  intro x hx
  have hq : ∀ e ∈ t ++ [Effect.dbConnect p], e.isReadOnly = true := by
    intro y hy
    rcases List.mem_append.1 hy with hy | hy
    · exact h y hy
    · rcases List.mem_singleton.1 hy with rfl
      rfl
  cases h1 : env.conn.connect with
  | error e =>
    simp [connectStageOrd, h1, pr] at hx
    rcases hx with hx | rfl | rfl
    · exact h x hx
    · rfl
    · rfl
  | ok u =>
    rw [connectStageOrd] at hx
    simp only [h1] at hx
    exact readonly_tableStageOrd so env _ hq x hx

theorem readonly_runSeeded (so : SetOrder) (env : Env) :
    ∀ e ∈ (runSeeded so env).trace, e.isReadOnly = true := by
  have hbase : ∀ e ∈ [pr (checkingLine (resolvedPath env)),
      Effect.fsExists (resolvedPath env)], e.isReadOnly = true := by
    intro y hy
    rcases List.mem_cons.1 hy with rfl | hy
    · rfl
    · rcases List.mem_singleton.1 hy with rfl
      rfl
  rw [runSeeded]
  by_cases hp : env.fs.pathExists (resolvedPath env) = true
  · rw [if_pos hp]
    exact readonly_connectStageOrd so env _ _ hbase
  · rw [if_neg hp]
    exact readonly_notFoundStage env _ _ hbase

/-- Claim C5, as frozen, fails on the code: with the same fixed environment
(default `DB_PATH`, the same database holding `users(id, name)`, the same
working directory), two successive interpreter processes may enumerate the
printed sets differently — string hashing is randomized per process — and
then their standard outputs differ byte-for-byte at the missing-columns
lines, though both exit 1.  `insertionOrder` and `revOrder` are both
genuine enumerations of the printed sets (each a permutation of the
contents), and the first is exactly the process modelled by `run`. -/
theorem c5_seed_counterexample :
    (insertionOrder.enum missingC5x).Perm missingC5x
    ∧ (revOrder.enum missingC5x).Perm missingC5x
    ∧ runSeeded insertionOrder envC5x = run envC5x
    ∧ (runSeeded revOrder envC5x).output = [checkingLine (resolvedPath envC5x),
        missingColsLine ["created_at", "email"], availColsLine ["name", "id"]]
    ∧ (runSeeded insertionOrder envC5x).outcome = (runSeeded revOrder envC5x).outcome
    ∧ (runSeeded insertionOrder envC5x).output ≠ (runSeeded revOrder envC5x).output :=
  ⟨List.Perm.refl missingC5x, List.reverse_perm missingC5x,
   runSeeded_insertionOrder envC5x, by decide, by decide, by decide⟩

/-- Claim C5 (amended): running the checker twice in succession against an
unmodified database performs only read effects — every effect of any
process's trace is read-only, and replaying the trace leaves the
environment unchanged — the exit outcome is the same both times regardless
of each process's set-enumeration order, and a process re-run with the
same enumeration on the unchanged environment yields the identical result;
byte-identical output is guaranteed only up to the enumeration order of
the two set reprs printed on the missing-columns path. -/
theorem c5_readonly_same_exit_up_to_set_order (so1 so2 : SetOrder) (env : Env) :
    (∀ e ∈ (runSeeded so1 env).trace, e.isReadOnly = true)
    ∧ envAfter env (runSeeded so1 env).trace = env
    ∧ runSeeded so1 (envAfter env (runSeeded so1 env).trace) = runSeeded so1 env
    ∧ (runSeeded so1 env).outcome = (runSeeded so2 env).outcome
    ∧ (runSeeded so1 env).outcome.exitCode = (runSeeded so2 env).outcome.exitCode := by
  have h := readonly_runSeeded so1 env
  have h2 := envAfter_of_readonly (runSeeded so1 env).trace env h
  have h3 := runSeeded_outcome_indep so1 so2 env
  exact ⟨h, h2, by rw [h2], h3, by rw [h3]⟩

theorem c5_readonly_same_exit_up_to_set_order_witness :
    envAfter envC5 (runSeeded insertionOrder envC5).trace = envC5
    ∧ (runSeeded insertionOrder envC5).outcome = (runSeeded revOrder envC5).outcome :=
  ⟨(c5_readonly_same_exit_up_to_set_order insertionOrder revOrder envC5).2.1,
   (c5_readonly_same_exit_up_to_set_order insertionOrder revOrder envC5).2.2.2.1⟩
